import Mathlib

/-!
# Ferroscope debugger-session orchestration: a shallow embedding

This file embeds the session state machine, the command dispatcher, the
state tracker, and the response-framer read loop of `src/main.rs` as pure
Lean functions, and proves the spec's claims about them.

The debugger subprocess is abstracted by an *oracle* `String → String`
mapping each raw command sent on the subprocess's input stream to the
framed response text that the framer would accumulate for it.  Every
operation returns, besides its structured result and the updated session,
the list of raw commands written to the subprocess's input stream during
the call, so "no command is written" is the observable statement that this
trace is `[]`.
-/

/-! ## String primitives mirroring the Rust standard library -/

/-- `List.isPrefixOf`-based substring test over characters:
`listInfix pat hay` holds iff `pat` occurs contiguously in `hay`.
Mirrors Rust `str::contains` for nonempty patterns. -/
def listInfix (pat : List Char) : List Char → Bool
  | [] => pat.isEmpty
  | c :: t => pat.isPrefixOf (c :: t) || listInfix pat t

/-- Rust `str::contains` (substring containment). -/
def strContains (s pat : String) : Bool :=
  listInfix pat.data s.data

/-- Worker for splitting on a separator: `skip` counts separator
characters still to be consumed after a match (so the recursion is
structural on `hay`); `acc` accumulates the current segment. -/
def splitSkip (sep : List Char) (skip : Nat) (hay : List Char) (acc : List Char) :
    List (List Char) :=
  match hay, skip with
  | [], _ => [acc]
  | _ :: t, Nat.succ k => splitSkip sep k t acc
  | c :: t, 0 =>
    if sep.isPrefixOf (c :: t) then
      acc :: splitSkip sep (sep.length - 1) t []
    else
      splitSkip sep 0 t (acc ++ [c])

/-- Splitting on a (nonempty) separator, accumulator-style:
`splitOnCL sep hay acc` returns the segments of `acc ++ hay` delimited by
leftmost non-overlapping occurrences of `sep`.  Mirrors Rust
`str::split(sep)`. -/
def splitOnCL (sep : List Char) (hay : List Char) (acc : List Char) : List (List Char) :=
  splitSkip sep 0 hay acc

/-- Rust `str::split(sep)` collected into a list. -/
def rustSplitOn (s sep : String) : List String :=
  (splitOnCL sep.data s.data []).map fun l => ⟨l⟩

/-- Rust `str::split_whitespace().next()`: the first maximal run of
non-whitespace characters, if any. -/
def firstToken (s : String) : Option String :=
  let rest := s.data.dropWhile fun c => c.isWhitespace
  match rest with
  | [] => none
  | _ => some ⟨rest.takeWhile fun c => !c.isWhitespace⟩

/-- Rust `str::trim()`: strip whitespace from both ends. -/
def rustTrim (s : String) : String :=
  ⟨((s.data.dropWhile fun c => c.isWhitespace).reverse.dropWhile
      fun c => c.isWhitespace).reverse⟩

/-- Rust `str::lines()`: split on `'\n'`, drop a final empty segment
produced by a trailing newline, and strip one trailing `'\r'` per line. -/
def rustLines (s : String) : List String :=
  let parts := splitOnCL ['\n'] s.data []
  let parts :=
    match parts.getLast? with
    | some [] => parts.dropLast
    | _ => parts
  parts.map fun l => ⟨if l.getLast? = some '\r' then l.dropLast else l⟩

/-! ## Data model -/

/-- `DebugState` from `src/main.rs`: the lifecycle state of a debugging
session. -/
inductive DebugState
  | NotLoaded
  | Loaded
  | Running
  | Stopped
  | Crashed
  | Completed
deriving Repr, DecidableEq

/-- `format!("\x7b:?\x7d", state).to_lowercase()` as the source renders
states into result fields. -/
def DebugState.lower : DebugState → String
  | .NotLoaded => "notloaded"
  | .Loaded => "loaded"
  | .Running => "running"
  | .Stopped => "stopped"
  | .Crashed => "crashed"
  | .Completed => "completed"

/-- `DebugSession` from `src/main.rs`, restricted to its pure fields.
The process handle and its stdin/stdout pipes are abstracted by the
response oracle and the command trace of each operation. -/
structure DebugSession where
  state : DebugState
  binary_path : String
  current_location : Option String
deriving Repr, DecidableEq

/-- `session_guard.as_ref().map(|s| s.state).unwrap_or(DebugState::NotLoaded)`:
absence of a session reads as `NotLoaded`. -/
def sessionState (st : Option DebugSession) : DebugState :=
  match st with
  | some s => s.state
  | none => DebugState.NotLoaded

/-! ## State Tracker -/

/-- The state-transition half of `DebugServer::update_session_state`
(src/main.rs lines 253-264): the if-else chain over response substrings;
no branch firing leaves the state unchanged. -/
def next_state (response : String) (prior : DebugState) : DebugState :=
  if strContains response "Process" && strContains response "launched" then
    DebugState.Running
  else if strContains response "Process" && strContains response "stopped" then
    DebugState.Stopped
  else if strContains response "Process" && strContains response "exited" then
    DebugState.Completed
  else if strContains response "crashed" || strContains response "SIGSEGV"
      || strContains response "SIGABRT" then
    DebugState.Crashed
  else
    prior

/-- Per-line location extraction inside
`DebugServer::extract_location_from_response`: a line yields a location iff
it contains `" at "` and the segment after the first `" at "` (up to the
next occurrence, Rust `split(" at ").nth(1)`) has a whitespace-delimited
token. -/
def line_location (line : String) : Option String :=
  if strContains line " at " then
    match (rustSplitOn line " at ").get? 1 with
    | some part => firstToken part
    | none => none
  else
    none

/-- The line scan of `DebugServer::extract_location_from_response`: first
line yielding a location wins; lines yielding none are passed over. -/
def extract_from_lines : List String → Option String
  | [] => none
  | l :: rest =>
    match line_location l with
    | some loc => some loc
    | none => extract_from_lines rest

/-- `DebugServer::extract_location_from_response` (src/main.rs 275-287). -/
def extract_location_from_response (response : String) : Option String :=
  extract_from_lines (rustLines response)

/-- `DebugServer::update_session_state` (src/main.rs 252-273): update the
state by the pattern chain, then, when the response mentions
`"stop reason"`, overwrite `current_location` by a successful extraction. -/
def update_session_state (response : String) (s : DebugSession) : DebugSession :=
  let s1 : DebugSession := { s with state := next_state response s.state }
  if strContains response "stop reason" then
    match extract_location_from_response response with
    | some location => { s1 with current_location := some location }
    | none => s1
  else
    s1

/-! ## Command Dispatcher -/

/-- The structured result value an operation returns, with one optional
field per JSON key the source ever emits (`json!` literals in
src/main.rs); a field is `none` when the corresponding key is absent. -/
structure OpResult where
  success : Option Bool := none
  error : Option String := none
  state : Option String := none
  output : Option String := none
  location : Option String := none
  binary_path : Option String := none
  expression : Option String := none
  method : Option String := none
deriving Repr, DecidableEq

/-- The observable outcome of one dispatcher call: the `Result<Value>`
(`Except.error` embeds a hard `anyhow` failure), the session afterwards,
and the raw commands written to the debugger's input stream during the
call, in order. -/
abbrev OpOutcome := Except String OpResult × Option DebugSession × List String

/-- `DebugServer::send_debugger_command` (src/main.rs 158-213), with the
framer already abstracted by the oracle: with a live session the command
is written and the framed response updates the session; with no session
nothing is written and the hard error is returned. -/
def send_debugger_command (oracle : String → String) (st : Option DebugSession)
    (command : String) : Except String String × Option DebugSession × List String :=
  match st with
  | some s =>
    let response := oracle command
    (Except.ok response, some (update_session_state response s), [command])
  | none => (Except.error "No active debugger session", none, [])

/-- The shared tail of `debug_continue`/`debug_step`/`debug_step_into`/
`debug_step_out` (duplicated verbatim in the source): send the command,
re-read state and location, and report success. -/
def run_and_report (oracle : String → String) (st : Option DebugSession)
    (command : String) : OpOutcome :=
  match send_debugger_command oracle st command with
  | (Except.ok response, st2, trace) =>
    let location : Option String :=
      match st2 with
      | some s => s.current_location
      | none => none
    (Except.ok { success := some true, state := some (sessionState st2).lower,
                 output := some (rustTrim response), location := location }, st2, trace)
  | (Except.error e, st2, trace) => (Except.error e, st2, trace)

/-- `DebugServer::debug_continue` (src/main.rs 492-552). -/
def debug_continue (oracle : String → String) (st : Option DebugSession) : OpOutcome :=
  match sessionState st with
  | .Loaded => run_and_report oracle st "process launch"
  | .Stopped => run_and_report oracle st "process continue"
  | .Running =>
    (Except.ok { success := some false, error := some "Program is already running",
                 state := some "running" }, st, [])
  | .Completed =>
    (Except.ok { success := some false, error := some "Program has finished execution",
                 state := some DebugState.Completed.lower }, st, [])
  | .Crashed =>
    (Except.ok { success := some false, error := some "Program has finished execution",
                 state := some DebugState.Crashed.lower }, st, [])
  | .NotLoaded =>
    (Except.ok { success := some false, error := some "No program loaded. Use debug_run first.",
                 state := some "not_loaded" }, st, [])

/-- `DebugServer::debug_step` (src/main.rs 554-589). -/
def debug_step (oracle : String → String) (st : Option DebugSession) : OpOutcome :=
  if sessionState st ≠ DebugState.Stopped then
    (Except.ok { success := some false,
                 error := some "Program must be stopped at a breakpoint to step",
                 state := some (sessionState st).lower }, st, [])
  else
    run_and_report oracle st "thread step-over"

/-- `DebugServer::debug_step_into` (src/main.rs 591-625). -/
def debug_step_into (oracle : String → String) (st : Option DebugSession) : OpOutcome :=
  if sessionState st ≠ DebugState.Stopped then
    (Except.ok { success := some false,
                 error := some "Program must be stopped at a breakpoint to step",
                 state := some (sessionState st).lower }, st, [])
  else
    run_and_report oracle st "thread step-in"

/-- `DebugServer::debug_step_out` (src/main.rs 627-661). -/
def debug_step_out (oracle : String → String) (st : Option DebugSession) : OpOutcome :=
  if sessionState st ≠ DebugState.Stopped then
    (Except.ok { success := some false,
                 error := some "Program must be stopped at a breakpoint to step",
                 state := some (sessionState st).lower }, st, [])
  else
    run_and_report oracle st "thread step-out"

/-- `DebugServer::debug_eval` (src/main.rs 701-745): reject unless
`Stopped`; otherwise send `expression <expr>`, and when its output
carries `"error:"` or `"undeclared identifier"` retry once with
`frame variable <expr>`. -/
def debug_eval (oracle : String → String) (st : Option DebugSession)
    (expression : String) : OpOutcome :=
  if sessionState st ≠ DebugState.Stopped then
    (Except.ok { success := some false,
                 error := some "Program must be stopped (at breakpoint) to evaluate expressions",
                 state := some (sessionState st).lower }, st, [])
  else
    let expr_cmd := "expression " ++ expression
    let frame_cmd := "frame variable " ++ expression
    match send_debugger_command oracle st expr_cmd with
    | (Except.ok response, st2, tr1) =>
      if strContains response "error:" || strContains response "undeclared identifier" then
        match send_debugger_command oracle st2 frame_cmd with
        | (Except.ok frame_response, st3, tr2) =>
          (Except.ok { success := some (!strContains frame_response "error:"),
                       expression := some expression,
                       output := some (rustTrim frame_response),
                       method := some "frame_variable" }, st3, tr1 ++ tr2)
        | (Except.error e, st3, tr2) => (Except.error e, st3, tr1 ++ tr2)
      else
        (Except.ok { success := some (!strContains response "error:"),
                     expression := some expression,
                     output := some (rustTrim response),
                     method := some "expression" }, st2, tr1)
    | (Except.error e, st2, tr1) => (Except.error e, st2, tr1)

/-- `DebugServer::debug_backtrace` (src/main.rs 747-770). -/
def debug_backtrace (oracle : String → String) (st : Option DebugSession) : OpOutcome :=
  if sessionState st ≠ DebugState.Stopped then
    (Except.ok { success := some false,
                 error := some "Program must be stopped to show backtrace",
                 state := some (sessionState st).lower }, st, [])
  else
    match send_debugger_command oracle st "thread backtrace" with
    | (Except.ok response, st2, trace) =>
      (Except.ok { success := some true, output := some (rustTrim response) }, st2, trace)
    | (Except.error e, st2, trace) => (Except.error e, st2, trace)

/-- `DebugServer::debug_break` (src/main.rs 479-490): no state check at
all; the command goes straight to `send_debugger_command`. -/
def debug_break (oracle : String → String) (st : Option DebugSession)
    (location : String) : OpOutcome :=
  let command := "breakpoint set --name " ++ location
  match send_debugger_command oracle st command with
  | (Except.ok response, st2, trace) =>
    (Except.ok { success := some (!strContains response "no locations"
                                   && !strContains response "error:"),
                 output := some (rustTrim response),
                 location := some location }, st2, trace)
  | (Except.error e, st2, trace) => (Except.error e, st2, trace)

/-- `DebugServer::get_debug_state` (src/main.rs 781-800): a read-only
snapshot; no command is sent. -/
def get_debug_state (st : Option DebugSession) : OpResult :=
  match st with
  | some s =>
    { state := some s.state.lower, location := s.current_location,
      binary_path := some s.binary_path }
  | none =>
    { state := some DebugState.NotLoaded.lower, location := none, binary_path := none }

/-! ## Response Framer -/

/-- `DebugServer::is_response_complete` (src/main.rs 215-250). -/
def is_response_complete (line command : String) : Bool :=
  if rustTrim line = "(lldb)" then true
  else if command.startsWith "process launch" && strContains line "Process"
      && (strContains line "launched" || strContains line "stopped") then true
  else if command.startsWith "process continue" && strContains line "Process"
      && (strContains line "stopped" || strContains line "exited") then true
  else if command.startsWith "breakpoint set" && strContains line "Breakpoint"
      && strContains line ":" then true
  else if (command.startsWith "expression" || command.startsWith "frame variable")
      && (strContains line "=" || strContains line "error:") then true
  else false

/-- What one iteration of the read loop's `tokio::select!` observes: a
line arriving `ms` milliseconds into the iteration (the chunk
`read_line` appended, newline included), the 100 ms sleep winning the
race, end of stream, or a read error. -/
inductive StreamEvent
  | line (text : String) (ms : Nat)
  | tick
  | eof
  | readErr
deriving Repr, DecidableEq

/-- Wall-clock milliseconds one loop iteration takes on an event.  The
100 ms sleep caps an iteration in which a line arrives, and any read
takes at least one millisecond, so a line iteration costs between 1 and
100 ms and a tick iteration exactly 100 ms. -/
def eventMillis : StreamEvent → Nat
  | .line _ ms => min (max ms 1) 100
  | _ => 100

/-- The marker the source appends when the 10-second deadline fires. -/
def timeoutMark : String := "[TIMEOUT - Command may still be processing]"

/-- The read loop of `DebugServer::send_debugger_command`
(src/main.rs 174-204), over an abstract event stream `evs` (the `n`-th
iteration observes `evs n`): check the 10-second deadline, then either
stop on EOF/read error, keep waiting on a tick, or append an arriving
line and stop if it completes the response.  Returns the accumulated
response, the elapsed milliseconds, and whether the timeout marker was
appended. -/
def read_loop (command : String) (evs : Nat → StreamEvent) (i : Nat)
    (elapsed : Nat) (response : String) : String × Nat × Bool :=
  if 10000 < elapsed then
    (response ++ timeoutMark, elapsed, true)
  else
    match evs i with
    | .eof => (response, elapsed, false)
    | .readErr => (response, elapsed, false)
    | .tick => read_loop command evs (i + 1) (elapsed + 100) response
    | .line t ms =>
      let response2 := response ++ t
      if is_response_complete t command then
        (response2, elapsed + eventMillis (.line t ms), false)
      else
        read_loop command evs (i + 1) (elapsed + eventMillis (.line t ms)) response2
termination_by 10001 - elapsed
decreasing_by
  · omega
  · simp only [eventMillis]
    omega

/-! ## Process lifecycle of `debug_run` -/

/-- Ownership events on debugger subprocesses. -/
inductive ProcEvent
  | kill
  | spawn
deriving Repr, DecidableEq

/-- The subprocess events `DebugServer::debug_run` (src/main.rs 322-345)
performs, in source order: it first takes and kills any existing
session's process, and only afterwards — when the path resolves (and the
build, if any, succeeds) — does `start_debugger_session` spawn a new
debugger.  `hadSession` records whether a session existed on entry;
`spawnReached` whether control reached the spawn. -/
def debug_run_trace (hadSession spawnReached : Bool) : List ProcEvent :=
  (if hadSession then [ProcEvent.kill] else [])
    ++ (if spawnReached then [ProcEvent.spawn] else [])

/-- Number of live debugger subprocesses after a list of events, starting
from `init` live processes. -/
def ownedCount (init : Nat) : List ProcEvent → Nat
  | [] => init
  | ProcEvent.kill :: rest => ownedCount (init - 1) rest
  | ProcEvent.spawn :: rest => ownedCount (init + 1) rest

/-- Number of sessions the registry (`Arc<Mutex<Option<DebugSession>>>`)
holds. -/
def sessionCount (st : Option DebugSession) : Nat :=
  match st with
  | some _ => 1
  | none => 0

/-! ## Spec-side definitions (for comparison with the source-side ones) -/

/-- Read a rendered state field back to the state it denotes.  The source
renders states with `format!("\x7b:?\x7d", state).to_lowercase()` except
for one hand-written `"not_loaded"` literal in `debug_continue`, so both
spellings denote `NotLoaded`. -/
def parseState (s : String) : Option DebugState :=
  if s = "notloaded" ∨ s = "not_loaded" then some DebugState.NotLoaded
  else if s = "loaded" then some DebugState.Loaded
  else if s = "running" then some DebugState.Running
  else if s = "stopped" then some DebugState.Stopped
  else if s = "crashed" then some DebugState.Crashed
  else if s = "completed" then some DebugState.Completed
  else none

/-- An outcome that is a structured rejection carrying the actual state
and writing nothing to the subprocess: the result is `Ok` with
`success:false`, its `state` field denotes `actual`, and the command
trace is empty. -/
def rejectedNoSend (out : OpOutcome) (actual : DebugState) : Prop :=
  (match out.1 with
   | Except.ok r => r.success = some false ∧ r.state.bind parseState = some actual
   | Except.error _ => False) ∧ out.2.2 = []

/-- The State Tracker transition table exactly as §4.3 of the spec words
it, rows tried in order and `none of the above` leaving the state
unchanged (spec-side definition, to be compared with
`update_session_state`). -/
def spec_state_table (response : String) (prior : DebugState) : DebugState :=
  if strContains response "Process" && strContains response "launched" then
    DebugState.Running
  else if strContains response "Process" && strContains response "stopped" then
    DebugState.Stopped
  else if strContains response "Process" && strContains response "exited" then
    DebugState.Completed
  else if strContains response "crashed" || strContains response "SIGSEGV"
      || strContains response "SIGABRT" then
    DebugState.Crashed
  else
    prior

/-- Everything after the first occurrence of `sep`, if `sep` occurs. -/
def afterFirst (sep : List Char) : List Char → Option (List Char)
  | [] => none
  | c :: t =>
    if sep.isPrefixOf (c :: t) then some (t.drop (sep.length - 1))
    else afterFirst sep t

/-- All the text following the first occurrence of `pat` in `s`. -/
def textAfter (s pat : String) : Option String :=
  (afterFirst pat.data s.data).map fun l => ⟨l⟩

/-- Location extraction as the claim words it (spec-side definition, to
be compared with `extract_location_from_response`): the *first* line
containing `" at "` alone decides the outcome — the location is the first
whitespace-delimited token of the text following `" at "` on that line,
and later matching lines are ignored, so a first matching line with no
token yields no location. -/
def extract_location_claimed (response : String) : Option String :=
  match (rustLines response).find? (fun l => strContains l " at ") with
  | some l => (textAfter l " at ").bind firstToken
  | none => none

/-! ## Helper lemmas -/

/-- The location-extraction half of `update_session_state` never touches
the state field: the new state is exactly the pattern chain applied to
the prior state. -/
theorem update_session_state_state (response : String) (s : DebugSession) :
    (update_session_state response s).state = next_state response s.state := by
  unfold update_session_state
  dsimp only
  split
  · split <;> rfl
  · rfl

/-- The state-transition half of `update_session_state` never touches
the location field: the new location is the extracted one when the
response mentions "stop reason" and extraction succeeds, the old one
otherwise. -/
theorem update_session_state_loc (response : String) (s : DebugSession) :
    (update_session_state response s).current_location =
      (if strContains response "stop reason" then
        match extract_location_from_response response with
        | some l => some l
        | none => s.current_location
      else s.current_location) := by
  unfold update_session_state
  dsimp only
  split
  · split <;> rfl
  · rfl

/-- The scan of `extract_from_lines` is "first line yielding a location
wins". -/
theorem extract_from_lines_findSome (ls : List String) :
    extract_from_lines ls = ls.findSome? line_location := by
  induction ls with
  | nil => rfl
  | cons l rest ih =>
    simp only [extract_from_lines, List.findSome?]
    cases line_location l <;> simp [ih]

/-! ## Claims -/

/-- C3: for every framed response text, the State Tracker's resulting
state is given by the spec's pattern table — Running on
"Process"+"launched", Stopped on "Process"+"stopped", Completed on
"Process"+"exited", Crashed on "crashed" or a fatal-signal name, and the
prior state unchanged when none of these patterns is present (rows tried
in order). -/
theorem state_tracker_matches_spec_table (response : String) (s : DebugSession) :
    (update_session_state response s).state = spec_state_table response s.state := by
  rw [update_session_state_state]
  rfl

/-- C10: when a framed response matches more than one state pattern, the
earlier pattern in the source's chain wins — in particular a response
containing "Process"+"launched" together with "crashed" yields Running,
not Crashed — and the only fatal-signal names recognized for the Crashed
transition are "SIGSEGV" and "SIGABRT" (any other response leaves the
state unchanged). -/
theorem state_pattern_priority (response : String) (s : DebugSession) :
    ((strContains response "Process" && strContains response "launched") = true →
      (update_session_state response s).state = DebugState.Running) ∧
    ((strContains response "Process" && strContains response "launched") = true →
      strContains response "crashed" = true →
      (update_session_state response s).state = DebugState.Running) ∧
    ((strContains response "Process" && strContains response "launched") = false →
      (strContains response "Process" && strContains response "stopped") = true →
      (update_session_state response s).state = DebugState.Stopped) ∧
    ((strContains response "Process" && strContains response "launched") = false →
      (strContains response "Process" && strContains response "stopped") = false →
      (strContains response "Process" && strContains response "exited") = true →
      (update_session_state response s).state = DebugState.Completed) ∧
    ((strContains response "Process" && strContains response "launched") = false →
      (strContains response "Process" && strContains response "stopped") = false →
      (strContains response "Process" && strContains response "exited") = false →
      (strContains response "crashed" || strContains response "SIGSEGV"
        || strContains response "SIGABRT") = true →
      (update_session_state response s).state = DebugState.Crashed) ∧
    ((strContains response "Process" && strContains response "launched") = false →
      (strContains response "Process" && strContains response "stopped") = false →
      (strContains response "Process" && strContains response "exited") = false →
      strContains response "crashed" = false → strContains response "SIGSEGV" = false →
      strContains response "SIGABRT" = false →
      (update_session_state response s).state = s.state) := by
  simp only [update_session_state_state]
  unfold next_state
  refine ⟨fun h1 => ?_, fun h1 _ => ?_, fun h1 h2 => ?_, fun h1 h2 h3 => ?_,
    fun h1 h2 h3 h4 => ?_, fun h1 h2 h3 h4 h5 h6 => ?_⟩
  · simp [h1]
  · simp [h1]
  · simp [h1, h2]
  · simp [h1, h2, h3]
  · simp [h1, h2, h3, h4]
  · simp [h1, h2, h3, h4, h5, h6]

/-- Witness for C10 at a concrete response matching both the "launched"
and the "crashed" patterns: the earlier pattern wins. -/
theorem state_pattern_priority_witness :
    (update_session_state "Process 7 launched then crashed"
      ⟨DebugState.Loaded, "bin", none⟩).state = DebugState.Running :=
  (state_pattern_priority "Process 7 launched then crashed"
    ⟨DebugState.Loaded, "bin", none⟩).1 (by decide)

/-- C8, counterexample: the claim says the first line containing " at "
decides the outcome and later matching lines are ignored, so on
"a at \nb at loc" (whose first matching line has no token after " at ")
no location would be produced — but the source skips that line and
returns "loc" from the second matching line. -/
theorem extract_location_first_line_cex :
    extract_location_from_response "a at \nb at loc" = some "loc" ∧
    extract_location_claimed "a at \nb at loc" = none := by
  exact ⟨by decide, by decide⟩

/-- C8 as amended: location extraction is attempted only when the
response contains "stop reason"; the lines are scanned top-to-bottom and
the first line that contains " at " *and* yields a whitespace-delimited
token from the segment following its first " at " (Rust
`split(" at ").nth(1)`) provides the location; a line containing " at "
but yielding no token is skipped rather than ending the scan, and if no
line yields a token, no location is produced. -/
theorem extract_location_amended (response line : String) (s : DebugSession) :
    ((update_session_state response s).current_location =
      (if strContains response "stop reason" then
        match extract_location_from_response response with
        | some l => some l
        | none => s.current_location
      else s.current_location)) ∧
    extract_location_from_response response
      = (rustLines response).findSome? line_location ∧
    (strContains line " at " = false → line_location line = none) := by
  refine ⟨update_session_state_loc response s, extract_from_lines_findSome _, fun h => ?_⟩
  simp [line_location, h]

/-- Witness for C8 as amended, at a response whose first " at "-bearing
line yields no token: the second line provides the location, and the
extraction only lands in the session when "stop reason" is present. -/
theorem extract_location_amended_witness :
    ((update_session_state "stop reason:\na at \nb at loc"
        ⟨DebugState.Stopped, "bin", none⟩).current_location =
      (if strContains "stop reason:\na at \nb at loc" "stop reason" then
        match extract_location_from_response "stop reason:\na at \nb at loc" with
        | some l => some l
        | none => (none : Option String)
      else none)) ∧
    extract_location_from_response "stop reason:\na at \nb at loc"
      = (rustLines "stop reason:\na at \nb at loc").findSome? line_location ∧
    line_location "no marker here" = none := by
  have h := extract_location_amended "stop reason:\na at \nb at loc" "no marker here"
    ⟨DebugState.Stopped, "bin", none⟩
  exact ⟨h.1, h.2.1, h.2.2 (by decide)⟩

/-- C9, counterexample: a location value *is* reported while the program
is Running — `continue` from Loaded whose launch response carries both
the "launched" pattern and a "stop reason"/" at " line returns
state "running" together with a location. -/
theorem location_reported_while_running_cex :
    (debug_continue (fun _ => "Process 1 launched, stop reason at main.rs:2:1 here")
        (some ⟨DebugState.Loaded, "bin", none⟩)).1
      = Except.ok { success := some true, state := some "running",
                    output := some "Process 1 launched, stop reason at main.rs:2:1 here",
                    location := some "main.rs:2:1" } := by
  rfl

/-- C9 as amended: the location exposed by get_state and by the
continue/step results is exactly the session's stored
`current_location`; that field is updated only by responses containing
"stop reason" whose extraction succeeds and is never cleared on state
transitions, so a state other than Stopped may still report the last
extracted (possibly stale) location. -/
theorem exposed_location_amended (oracle : String → String) (st : Option DebugSession)
    (s : DebugSession) (cmd response : String) :
    (get_debug_state st).location
        = (match st with | some s0 => s0.current_location | none => none) ∧
    ((run_and_report oracle (some s) cmd).1.toOption.bind fun r => r.location)
        = (update_session_state (oracle cmd) s).current_location ∧
    ((update_session_state response s).current_location =
      (if strContains response "stop reason" then
        match extract_location_from_response response with
        | some l => some l
        | none => s.current_location
      else s.current_location)) := by
  refine ⟨?_, ?_, update_session_state_loc response s⟩
  · cases st <;> rfl
  · rfl

/-- C1: every state-gated operation (continue, step, step_into,
step_out, eval, backtrace), called while the current state (absence of a
session reading as NotLoaded) is outside its precondition set, returns a
structured `success:false` result whose state field denotes the actual
current state, and writes no command to the debugger subprocess. -/
theorem gated_ops_reject_without_send (oracle : String → String)
    (st : Option DebugSession) :
    (sessionState st ≠ DebugState.Loaded → sessionState st ≠ DebugState.Stopped →
      rejectedNoSend (debug_continue oracle st) (sessionState st)) ∧
    (sessionState st ≠ DebugState.Stopped →
      rejectedNoSend (debug_step oracle st) (sessionState st)) ∧
    (sessionState st ≠ DebugState.Stopped →
      rejectedNoSend (debug_step_into oracle st) (sessionState st)) ∧
    (sessionState st ≠ DebugState.Stopped →
      rejectedNoSend (debug_step_out oracle st) (sessionState st)) ∧
    (∀ e, sessionState st ≠ DebugState.Stopped →
      rejectedNoSend (debug_eval oracle st e) (sessionState st)) ∧
    (sessionState st ≠ DebugState.Stopped →
      rejectedNoSend (debug_backtrace oracle st) (sessionState st)) := by
  rcases st with _ | ⟨sst, bp, loc⟩
  · refine ⟨fun h1 h2 => ?_, fun h => ?_, fun h => ?_, fun h => ?_, fun e h => ?_,
      fun h => ?_⟩ <;> exact ⟨⟨rfl, rfl⟩, rfl⟩
  · cases sst <;>
      refine ⟨fun h1 h2 => ?_, fun h => ?_, fun h => ?_, fun h => ?_, fun e h => ?_,
        fun h => ?_⟩ <;>
      first
        | exact absurd rfl (by assumption)
        | exact ⟨⟨rfl, rfl⟩, rfl⟩

/-- Witness for C1 with a session in state Running (outside every
gated operation's precondition set). -/
theorem gated_ops_reject_without_send_witness :
    rejectedNoSend (debug_continue (fun _ => "")
      (some ⟨DebugState.Running, "bin", none⟩)) DebugState.Running ∧
    rejectedNoSend (debug_step (fun _ => "")
      (some ⟨DebugState.Running, "bin", none⟩)) DebugState.Running ∧
    rejectedNoSend (debug_step_into (fun _ => "")
      (some ⟨DebugState.Running, "bin", none⟩)) DebugState.Running ∧
    rejectedNoSend (debug_step_out (fun _ => "")
      (some ⟨DebugState.Running, "bin", none⟩)) DebugState.Running ∧
    rejectedNoSend (debug_eval (fun _ => "")
      (some ⟨DebugState.Running, "bin", none⟩) "x") DebugState.Running ∧
    rejectedNoSend (debug_backtrace (fun _ => "")
      (some ⟨DebugState.Running, "bin", none⟩)) DebugState.Running :=
  have h := gated_ops_reject_without_send (fun _ => "")
    (some ⟨DebugState.Running, "bin", none⟩)
  ⟨h.1 (by decide) (by decide), h.2.1 (by decide), h.2.2.1 (by decide),
   h.2.2.2.1 (by decide), h.2.2.2.2.1 "x" (by decide), h.2.2.2.2.2 (by decide)⟩

/-- C2: `continue` as a function of the current state — Loaded sends the
raw command "process launch"; Stopped sends "process continue"; Running
returns `success:false` with the "already running" message and sends
nothing; Completed and Crashed return `success:false` with the
terminal-state error "Program has finished execution" and send nothing;
NotLoaded returns `success:false` with the "No program loaded" message
and sends nothing. -/
theorem debug_continue_state_behavior (oracle : String → String)
    (st : Option DebugSession) :
    (sessionState st = DebugState.Loaded →
      (debug_continue oracle st).2.2 = ["process launch"]) ∧
    (sessionState st = DebugState.Stopped →
      (debug_continue oracle st).2.2 = ["process continue"]) ∧
    (sessionState st = DebugState.Running →
      debug_continue oracle st
        = (Except.ok { success := some false, error := some "Program is already running",
                       state := some "running" }, st, []) ∧
      strContains "Program is already running" "already running" = true) ∧
    (sessionState st = DebugState.Completed →
      debug_continue oracle st
        = (Except.ok { success := some false,
                       error := some "Program has finished execution",
                       state := some "completed" }, st, [])) ∧
    (sessionState st = DebugState.Crashed →
      debug_continue oracle st
        = (Except.ok { success := some false,
                       error := some "Program has finished execution",
                       state := some "crashed" }, st, [])) ∧
    (sessionState st = DebugState.NotLoaded →
      debug_continue oracle st
        = (Except.ok { success := some false,
                       error := some "No program loaded. Use debug_run first.",
                       state := some "not_loaded" }, st, []) ∧
      strContains "No program loaded. Use debug_run first." "program loaded" = true) := by
  rcases st with _ | ⟨sst, bp, loc⟩
  · refine ⟨fun h => ?_, fun h => ?_, fun h => ?_, fun h => ?_, fun h => ?_,
      fun h => ?_⟩ <;>
    first
      | exact DebugState.noConfusion h
      | exact rfl
      | exact ⟨rfl, by decide⟩
  · cases sst <;>
      refine ⟨fun h => ?_, fun h => ?_, fun h => ?_, fun h => ?_, fun h => ?_,
        fun h => ?_⟩ <;>
      first
        | exact DebugState.noConfusion h
        | exact rfl
        | exact ⟨rfl, by decide⟩

/-- Witness for C2 at three concrete sessions: Loaded launches, Running
is rejected with "already running" and no send, no session is rejected
with the "no program loaded" message. -/
theorem debug_continue_state_behavior_witness :
    (debug_continue (fun _ => "") (some ⟨DebugState.Loaded, "bin", none⟩)).2.2
      = ["process launch"] ∧
    debug_continue (fun _ => "") (some ⟨DebugState.Running, "bin", none⟩)
      = (Except.ok { success := some false, error := some "Program is already running",
                     state := some "running" },
         some ⟨DebugState.Running, "bin", none⟩, []) ∧
    debug_continue (fun _ => "") none
      = (Except.ok { success := some false,
                     error := some "No program loaded. Use debug_run first.",
                     state := some "not_loaded" }, none, []) :=
  ⟨(debug_continue_state_behavior (fun _ => "")
      (some ⟨DebugState.Loaded, "bin", none⟩)).1 (by decide),
   ((debug_continue_state_behavior (fun _ => "")
      (some ⟨DebugState.Running, "bin", none⟩)).2.2.1 (by decide)).1,
   ((debug_continue_state_behavior (fun _ => "")
      none).2.2.2.2.2 (by decide)).1⟩

/-- C4: eval in state Stopped first sends "expression <expr>"; the
fallback command "frame variable <expr>" is sent iff the first attempt's
output contains "error:" or "undeclared identifier"; success is true
exactly when the final attempt's output lacks "error:", and the method
field records which command produced the answer. -/
theorem debug_eval_fallback_iff (oracle : String → String) (e : String)
    (s : DebugSession) (h : s.state = DebugState.Stopped) :
    (debug_eval oracle (some s) e).2.2.head? = some ("expression " ++ e) ∧
    ((strContains (oracle ("expression " ++ e)) "error:"
        || strContains (oracle ("expression " ++ e)) "undeclared identifier") = true →
      (debug_eval oracle (some s) e).2.2
          = ["expression " ++ e, "frame variable " ++ e] ∧
      ((debug_eval oracle (some s) e).1.toOption.bind fun r => r.method)
          = some "frame_variable" ∧
      ((debug_eval oracle (some s) e).1.toOption.bind fun r => r.success)
          = some (!strContains (oracle ("frame variable " ++ e)) "error:")) ∧
    ((strContains (oracle ("expression " ++ e)) "error:"
        || strContains (oracle ("expression " ++ e)) "undeclared identifier") = false →
      (debug_eval oracle (some s) e).2.2 = ["expression " ++ e] ∧
      ((debug_eval oracle (some s) e).1.toOption.bind fun r => r.method)
          = some "expression" ∧
      ((debug_eval oracle (some s) e).1.toOption.bind fun r => r.success)
          = some (!strContains (oracle ("expression " ++ e)) "error:")) := by
  have hstop : ¬ sessionState (some s) ≠ DebugState.Stopped := by simp [sessionState, h]
  cases hb : (strContains (oracle ("expression " ++ e)) "error:"
      || strContains (oracle ("expression " ++ e)) "undeclared identifier") with
  | false =>
    refine ⟨?_, fun hb2 => ?_, fun _ => ?_⟩
    · simp [debug_eval, hstop, send_debugger_command, hb, Except.toOption]
    · exact Bool.noConfusion hb2
    · simp [debug_eval, hstop, send_debugger_command, hb, Except.toOption]
  | true =>
    refine ⟨?_, fun _ => ?_, fun hb2 => ?_⟩
    · simp [debug_eval, hstop, send_debugger_command, hb, Except.toOption]
    · simp [debug_eval, hstop, send_debugger_command, hb, Except.toOption]
    · exact Bool.noConfusion hb2

/-- Witness for C4 at a concrete oracle whose "expression x" output
carries "error:": the fallback command is sent and the method field
records it. -/
theorem debug_eval_fallback_iff_witness :
    (debug_eval (fun c => if c = "expression x" then "error: no" else "y = 5")
        (some ⟨DebugState.Stopped, "b", none⟩) "x").2.2
      = ["expression " ++ "x", "frame variable " ++ "x"] ∧
    ((debug_eval (fun c => if c = "expression x" then "error: no" else "y = 5")
        (some ⟨DebugState.Stopped, "b", none⟩) "x").1.toOption.bind fun r => r.method)
      = some "frame_variable" :=
  have h := debug_eval_fallback_iff
    (fun c => if c = "expression x" then "error: no" else "y = 5")
    "x" ⟨DebugState.Stopped, "b", none⟩ rfl
  have h2 := h.2.1 (by decide)
  ⟨h2.1, h2.2.1⟩

/-- C5, counterexample: `break("main")` before any load (no session)
sends *no* command — there is no subprocess to send to — and returns a
hard `anyhow` failure instead of a structured `success:false` result. -/
theorem debug_break_before_load_cex :
    (debug_break (fun _ => "") none "main").2.2 = [] ∧
    (debug_break (fun _ => "") none "main").1
      = Except.error "No active debugger session" :=
  ⟨rfl, rfl⟩

/-- C5 as amended: break has no *state* precondition — whenever a session
exists, in every state, "breakpoint set --name <location>" is sent and
success is true exactly when the output lacks both "no locations" and
"error:"; but with no session at all (before any load) no command is
sent and the call fails hard with "No active debugger session". -/
theorem debug_break_amended (oracle : String → String) (location : String)
    (s : DebugSession) :
    (debug_break oracle (some s) location).2.2
      = ["breakpoint set --name " ++ location] ∧
    ((debug_break oracle (some s) location).1.toOption.bind fun r => r.success)
      = some (!strContains (oracle ("breakpoint set --name " ++ location)) "no locations"
              && !strContains (oracle ("breakpoint set --name " ++ location)) "error:") ∧
    debug_break oracle none location
      = (Except.error "No active debugger session", none, []) :=
  ⟨rfl, rfl, rfl⟩

/-- C6: `debug_run` kills any previously existing debugger subprocess
before the spawn point is ever reached, so along every prefix of its
subprocess-event trace at most one debugger subprocess is owned, and the
registry (an `Option`) holds at most one session. -/
theorem debug_run_single_ownership (hadSession spawnReached : Bool) (n : Nat)
    (st : Option DebugSession) :
    ownedCount (if hadSession then 1 else 0)
        ((debug_run_trace hadSession spawnReached).take n) ≤ 1 ∧
    (hadSession = true →
      (debug_run_trace hadSession spawnReached).head? = some ProcEvent.kill) ∧
    sessionCount st ≤ 1 := by
  refine ⟨?_, fun hh => ?_, ?_⟩
  · cases hadSession <;> cases spawnReached <;>
      rcases n with _ | _ | n <;>
      simp [debug_run_trace, ownedCount, List.take]
  · subst hh; cases spawnReached <;> rfl
  · cases st <;> simp [sessionCount]

/-- Witness for C6 at a run that had a previous session and reaches the
spawn: the old process is killed first and ownership never exceeds one. -/
theorem debug_run_single_ownership_witness :
    ownedCount 1 ((debug_run_trace true true).take 2) ≤ 1 ∧
    (debug_run_trace true true).head? = some ProcEvent.kill :=
  have h := debug_run_single_ownership true true 2 none
  ⟨h.1, h.2.1 rfl⟩

/-- C7: on an output stream that never produces a line satisfying the
completion condition (and never ends, i.e. no EOF and no read error —
those terminate the loop even earlier by other paths), the read loop
terminates with elapsed wall-clock time at most the 10-second deadline
plus one ~100 ms poll tick, its truncated-by-timeout flag set, and the
partial output accumulated so far annotated with the timeout marker. -/
theorem read_loop_deadline (command : String) (evs : Nat → StreamEvent)
    (hline : ∀ n t ms, evs n = StreamEvent.line t ms →
      is_response_complete t command = false)
    (heof : ∀ n, evs n ≠ StreamEvent.eof)
    (herr : ∀ n, evs n ≠ StreamEvent.readErr)
    (i elapsed : Nat) (response : String) (hel : elapsed ≤ 10100) :
    (read_loop command evs i elapsed response).2.1 ≤ 10100 ∧
    (read_loop command evs i elapsed response).2.2 = true ∧
    ∃ p, (read_loop command evs i elapsed response).1 = p ++ timeoutMark := by
  suffices H : ∀ k i elapsed response, elapsed ≤ 10100 → 10101 - elapsed ≤ k →
      (read_loop command evs i elapsed response).2.1 ≤ 10100 ∧
      (read_loop command evs i elapsed response).2.2 = true ∧
      ∃ p, (read_loop command evs i elapsed response).1 = p ++ timeoutMark by
    exact H 10101 i elapsed response hel (by omega)
  intro k
  induction k with
  | zero =>
    intro i elapsed response hel hk
    omega
  | succ k ih =>
    intro i elapsed response hel hk
    rw [read_loop]
    by_cases ht : 10000 < elapsed
    · rw [if_pos ht]
      exact ⟨hel, rfl, ⟨response, rfl⟩⟩
    · rw [if_neg ht]
      cases hev : evs i with
      | eof => exact absurd hev (heof i)
      | readErr => exact absurd hev (herr i)
      | tick => exact ih (i + 1) (elapsed + 100) response (by omega) (by omega)
      | line t ms =>
        have hc := hline i t ms hev
        have h1 : 1 ≤ eventMillis (StreamEvent.line t ms) := by
          simp only [eventMillis]
          omega
        have h2 : eventMillis (StreamEvent.line t ms) ≤ 100 := by
          simp only [eventMillis]
          omega
        simp only [hc, Bool.false_eq_true, if_false]
        exact ih (i + 1) (elapsed + eventMillis (StreamEvent.line t ms))
          (response ++ t) (by omega) (by omega)

/-- Witness for C7 on the stream that never produces any line at all
(every iteration is a poll tick): the loop stops by the deadline with
the timeout flag set. -/
theorem read_loop_deadline_witness :
    (read_loop "process launch" (fun _ => StreamEvent.tick) 0 0 "").2.1 ≤ 10100 ∧
    (read_loop "process launch" (fun _ => StreamEvent.tick) 0 0 "").2.2 = true :=
  have h := read_loop_deadline "process launch" (fun _ => StreamEvent.tick)
    (fun n t ms hev => StreamEvent.noConfusion hev)
    (fun n hev => StreamEvent.noConfusion hev)
    (fun n hev => StreamEvent.noConfusion hev)
    0 0 "" (by omega)
  ⟨h.1, h.2.1⟩
